import Mathlib

/-!
Shallow embedding of `pytest_monitor/session.py` (class `PyTestMonitorSession`).

Modelling conventions:
* Real-valued measurements (times, memory) are modelled exactly by `Rat`.
* The Python attribute `self.__remote` holds either `None` or a URL string; the
  code disables the remote sink by assigning the empty string (which is falsy).
  We model it as `Option String` and truthiness by `truthy`.
* Each operation returns an `Outcome`: the list of observable sink effects it
  performed, the post-state (Python mutations survive a raised exception, so
  the state reflects every assignment executed before the raise), and
  `err = some e` when the operation raises exception `e` to its caller.
* Calls into external collaborators (`requests`, `hashlib.md5`,
  `datetime`, `memory_profiler`, `str.format`, CI/SCM probes) are inputs:
  HTTP responses are passed as `HttpResp` values and the pure external
  functions are bundled in `Externals`.
-/

/-- Exceptions that the embedded operations can raise, mirroring the Python
exceptions reachable in `session.py`. -/
inductive PyError where
  | zeroDivision
  | indexError
  | typeError
  | transport
deriving DecidableEq, Repr

/-- Result of a `requests` call: either a response (already parsed, carrying
the fields the code reads) or a raised transport/connection exception. -/
inductive HttpResp (α : Type) where
  | ok (val : α)
  | raised (msg : String)
deriving DecidableEq, Repr

/-- HTTP status `http.HTTPStatus.OK`. -/
def statusOK : Nat := 200

/-- HTTP status `http.HTTPStatus.CREATED`. -/
def statusCreated : Nat := 201

/-- Python truthiness of the `__remote` attribute (`None` and `""` are falsy). -/
def truthy : Option String → Bool
  | none => false
  | some s => if s = "" then false else true

/-- Row inserted by `DBHandler.insert_metric` / posted to `/metrics/`; for the
remote payload `envId` carries the `context_h` field. -/
structure MetricRow where
  sessionH : String
  envId : String
  itemStartTime : String
  item : String
  itemPath : String
  itemVariant : String
  itemLoc : String
  kind : String
  component : String
  totalTime : Rat
  userTime : Rat
  kernelTime : Rat
  cpuUsage : Rat
  memUsage : Rat
deriving DecidableEq, Repr

/-- Host statistics captured by `add_system_memory_snapshot` (psutil reads,
external inputs to the operation). -/
structure SysSample where
  totalMb : Rat
  availMb : Rat
  usedMb : Rat
  percent : Rat
  rssMb : Rat
  vmsMb : Rat
  swapMb : Rat
deriving DecidableEq, Repr

/-- Observable side effects on the two sinks (plus logging/warning), in the
order the code performs them. -/
inductive Effect where
  | log (msg : String)
  | warn (msg : String)
  | dbInsertSession (sessionH runDate scmRef : String) (descr : List (String × String))
  | dbInsertContext (envH : String)
  | dbInsertMetric (row : MetricRow)
  | remoteGetContexts (url : String)
  | remotePostSession (url sessionH runDate scmRef : String) (descr : List (String × String))
  | remotePostContext (url : String) (payload : List (String × String))
  | remotePostMetric (url : String) (row : MetricRow)
  | remotePostSysMem (url sessionH : String) (testOrder : Nat) (itemPath item : String)
      (stats : SysSample)
deriving DecidableEq, Repr

/-- Effects that write to the local store (`DBHandler` inserts). -/
def Effect.isLocalWrite : Effect → Bool
  | .dbInsertSession _ _ _ _ => true
  | .dbInsertContext _ => true
  | .dbInsertMetric _ => true
  | _ => false

/-- Effects that dispatch a call to the remote sink (lookups included). -/
def Effect.isRemoteCall : Effect → Bool
  | .remoteGetContexts _ => true
  | .remotePostSession _ _ _ _ _ => true
  | .remotePostContext _ _ => true
  | .remotePostMetric _ _ => true
  | .remotePostSysMem _ _ _ _ _ _ => true
  | _ => false

/-- Effects that write to either sink. -/
def Effect.isSinkWrite (e : Effect) : Bool := e.isLocalWrite || e.isRemoteCall

/-- Modelled from the spec: `ExecutionContext` (from `pytest_monitor.sys_utils`,
not under `src/`) is carried by its deterministic fingerprint `compute_hash()`
(spec section 4.1: pure content hash of the attribute set) and its serialized
attribute payload `to_dict()`. -/
structure ExecutionContext where
  hash : String
  payload : List (String × String)
deriving DecidableEq, Repr

/-- Modelled from the spec: the local store adapter `DBHandler` (from
`pytest_monitor.handler`, not under `src/`), per the contract of spec section 6:
table `EXECUTION_CONTEXTS` keyed by `ENV_H`, point lookup by fingerprint, and
append-only inserts for sessions, contexts and metrics. -/
structure LocalDB where
  contexts : List String
  sessions : List (String × String × String × List (String × String))
  metrics : List MetricRow
deriving DecidableEq, Repr

/-- Point lookup `SELECT ENV_H FROM EXECUTION_CONTEXTS WHERE ENV_H = ?`
followed by the code's `row[0] if row else None`: the selected key is the
fingerprint itself. -/
def LocalDB.queryCtx (db : LocalDB) (envH : String) : Option String :=
  if db.contexts.contains envH then some envH else none

/-- Insert of an execution context row (keyed by its fingerprint). -/
def LocalDB.insertExecutionContext (db : LocalDB) (envH : String) : LocalDB :=
  { db with contexts := db.contexts ++ [envH] }

/-- Insert of a session row. -/
def LocalDB.insertSession (db : LocalDB) (sessionH runDate scmRef : String)
    (descr : List (String × String)) : LocalDB :=
  { db with sessions := db.sessions ++ [(sessionH, runDate, scmRef, descr)] }

/-- Insert of a metric row. -/
def LocalDB.insertMetric (db : LocalDB) (row : MetricRow) : LocalDB :=
  { db with metrics := db.metrics ++ [row] }

/-- State of a `PyTestMonitorSession` object (its private attributes). -/
structure SessionState where
  db : Option LocalDB
  monitorEnabled : Bool
  remote : Option String
  component : String
  session : String
  scope : List String
  eid : Option String × Option String
  memUsageBase : Option Rat
  testOrder : Nat
deriving DecidableEq, Repr

/-- Result of running one operation: effects in order, the object state after
all executed assignments, and the exception raised to the caller, if any. -/
structure Outcome where
  effects : List Effect
  state : SessionState
  err : Option PyError
deriving DecidableEq, Repr

/-- Constructor `PyTestMonitorSession.__init__`: `db` is `None`/falsy exactly
when the model argument is `none`; `scope or []` maps `None` and `[]` to `[]`. -/
def initSession (db : Option LocalDB) (remote : Option String) (component : String)
    (scope : Option (List String)) (tracing : Bool) : SessionState :=
  { db := db
    monitorEnabled := tracing
    remote := remote
    component := component
    session := ""
    scope := scope.getD []
    eid := (none, none)
    memUsageBase := none
    testOrder := 0 }

/-- Pure external collaborators of the session object. -/
structure Externals where
  md5hex : String → String
  scmRevision : String
  nowIso : String
  ciInfo : List (String × String)
  isoOfTimestamp : Rat → String
  memSample : Rat
  pyFormat : String → String → String

/-- Local half of `get_env_id`: the point lookup when a store is configured. -/
def localLookup (s : SessionState) (env : ExecutionContext) : Option String :=
  match s.db with
  | some db => db.queryCtx env.hash
  | none => none

/-- Remote id extracted from a `GET /contexts/fingerprint` response: the `h`
field of the first element of the `contexts` array on an OK status, else
`None`. -/
def remoteIdOf (status : Nat) (ctxs : List String) : Option String :=
  if status = statusOK then
    match ctxs with
    | [] => none
    | h :: _ => some h
  else none

/-- Method `get_env_id`: local point lookup plus, when the remote sink is
truthy, a `GET /contexts/fingerprint` whose parsed body is the list of the
`h` fields of the returned `contexts` array. -/
def getEnvId (s : SessionState) (env : ExecutionContext)
    (getResp : HttpResp (Nat × List String)) :
    List Effect × Except PyError (Option String × Option String) :=
  if truthy s.remote then
    let url := (s.remote.getD "") ++ "/contexts/" ++ env.hash
    match getResp with
    | .raised _ => ([Effect.remoteGetContexts url], Except.error PyError.transport)
    | .ok (status, ctxs) =>
      ([Effect.remoteGetContexts url], Except.ok (localLookup s env, remoteIdOf status ctxs))
  else ([], Except.ok (localLookup s env, none))

/-- Remote half of `set_environment_info` (lines 139-153): posts the context
when the remote sink is truthy and no remote id was found, then commits
`self.__eid = db_id, remote_id`. -/
def seiRemote (s : SessionState) (env : ExecutionContext) (effs : List Effect)
    (dbId remoteId : Option String) (ctxPostResp : HttpResp (Nat × String)) : Outcome :=
  if truthy s.remote && remoteId.isNone then
    let url := (s.remote.getD "") ++ "/contexts/"
    let effs2 := effs ++ [Effect.remotePostContext url env.payload]
    match ctxPostResp with
    | .raised _ => ⟨effs2, s, some PyError.transport⟩
    | .ok (status, bodyH) =>
      if status = statusCreated then
        ⟨effs2, { s with eid := (dbId, some bodyH) }, none⟩
      else
        ⟨effs2 ++ [Effect.warn "Cannot insert execution context in remote server. Deactivating..."],
         { s with remote := some "", eid := (dbId, none) }, none⟩
  else ⟨effs, { s with eid := (dbId, remoteId) }, none⟩

/-- Method `set_environment_info`: resolve ids via `get_env_id`, then for the
local store insert-then-re-query when absent (the code subscripts the re-query
result, raising `TypeError` if it were `None`), then the remote half. -/
def setEnvironmentInfo (s : SessionState) (env : ExecutionContext)
    (getResp : HttpResp (Nat × List String))
    (ctxPostResp : HttpResp (Nat × String)) : Outcome :=
  match getEnvId s env getResp with
  | (effs, Except.error e) => ⟨effs, s, some e⟩
  | (effs, Except.ok (dbId0, remoteId0)) =>
    let s1 := { s with eid := (dbId0, remoteId0) }
    match s1.db, dbId0 with
    | some db, none =>
      let db2 := db.insertExecutionContext env.hash
      let s2 := { s1 with db := some db2 }
      let effs2 := effs ++ [Effect.dbInsertContext env.hash]
      match db2.queryCtx env.hash with
      | none => ⟨effs2, s2, some PyError.typeError⟩
      | some hkey => seiRemote s2 env effs2 (some hkey) remoteId0 ctxPostResp
    | _, _ => seiRemote s1 env effs dbId0 remoteId0 ctxPostResp

/-- Method `prepare`: calibrates the memory baseline from the
`memory_profiler` sample of a dummy call. -/
def prepare (s : SessionState) (ext : Externals) : SessionState :=
  { s with memUsageBase := some ext.memSample }

/-- Split a character list at the first occurrence of the separator, or `none`
when the separator does not occur (the semantics of Python split with
maxsplit 1, at character granularity). -/
def splitAtFirst (sep : Char) : List Char → Option (List Char × List Char)
  | [] => none
  | c :: cs =>
    if c = sep then some ([], cs)
    else
      match splitAtFirst sep cs with
      | none => none
      | some (a, b) => some (c :: a, b)

/-- Python string split with separator and maxsplit 1, as used by
`tag.split("=", 1)`: one piece when the separator is absent, two otherwise. -/
def splitEq1 (s : String) : List String :=
  match splitAtFirst '=' s.data with
  | none => [s]
  | some (a, b) => [String.mk a, String.mk b]

/-- Python dict assignment `d[k] = v` on an insertion-ordered mapping:
overwrite in place when the key exists, append otherwise. -/
def dictSet (d : List (String × String)) (k v : String) : List (String × String) :=
  if d.any (fun p => p.1 = k) then
    d.map (fun p => if p.1 = k then (k, v) else p)
  else d ++ [(k, v)]

/-- A tag argument: either a single string or a nested sequence of strings
(the code branches on `type(tag) is str`). -/
inductive Tag where
  | single (s : String)
  | group (l : List String)
deriving DecidableEq, Repr

/-- Strings carried by a tag. -/
def tagStrings : Tag → List String
  | .single t => [t]
  | .group l => l

/-- Processing of one tag string: `_tag_info = t.split("=", 1)` followed by
`d[_tag_info[0]] = _tag_info[1]`; with no separator the second subscript
raises `IndexError`. -/
def applyTagStr (d : List (String × String)) (t : String) :
    Except PyError (List (String × String)) :=
  match splitEq1 t with
  | [k, v] => Except.ok (dictSet d k v)
  | _ => Except.error PyError.indexError

/-- Left-to-right processing of the strings of a nested tag sequence. -/
def applyTagStrs (d : List (String × String)) : List String → Except PyError (List (String × String))
  | [] => Except.ok d
  | t :: ts =>
    match applyTagStr d t with
    | Except.error e => Except.error e
    | Except.ok d2 => applyTagStrs d2 ts

/-- Processing of one tag argument. -/
def applyTag (d : List (String × String)) : Tag → Except PyError (List (String × String))
  | .single t => applyTagStr d t
  | .group l => applyTagStrs d l

/-- The `for tag in tags` loop of `compute_info`. -/
def applyTags (d : List (String × String)) : List Tag → Except PyError (List (String × String))
  | [] => Except.ok d
  | t :: ts =>
    match applyTag d t with
    | Except.error e => Except.error e
    | Except.ok d2 => applyTags d2 ts

/-- Method `compute_info`: set the session hash from the MD5 of
revision, run date and description (three successive `h.update` calls, i.e.
the digest of their concatenation in that order), build the description
mapping from CI info, the description and the tags, then `prepare`, then
`set_environment_info`, then the session inserts on each configured sink. -/
def computeInfo (s : SessionState) (ext : Externals) (description : String)
    (tags : List Tag) (env : ExecutionContext)
    (getResp : HttpResp (Nat × List String))
    (ctxPostResp : HttpResp (Nat × String))
    (sessPostResp : HttpResp Nat) : Outcome :=
  let runDate := ext.nowIso
  let scm := ext.scmRevision
  let sessionH := ext.md5hex (scm ++ runDate ++ description)
  let s1 := { s with session := sessionH }
  let d0 := ext.ciInfo
  let d1 := if description = "" then d0 else dictSet d0 "description" description
  match applyTags d1 tags with
  | Except.error e => ⟨[], s1, some e⟩
  | Except.ok d2 =>
    let s2 := prepare s1 ext
    match setEnvironmentInfo s2 env getResp ctxPostResp with
    | ⟨effs, s3, some e⟩ => ⟨effs, s3, some e⟩
    | ⟨effs, s3, none⟩ =>
      let (effs2, s4) :=
        match s3.db with
        | some db =>
          (effs ++ [Effect.dbInsertSession sessionH runDate scm d2],
           { s3 with db := some (db.insertSession sessionH runDate scm d2) })
        | none => (effs, s3)
      if truthy s4.remote then
        let url := (s4.remote.getD "") ++ "/sessions/"
        let effs3 := effs2 ++ [Effect.remotePostSession url sessionH runDate scm d2]
        match sessPostResp with
        | .raised _ => ⟨effs3, s4, some PyError.transport⟩
        | .ok status =>
          if status = statusCreated then ⟨effs3, s4, none⟩
          else
            ⟨effs3 ++ [Effect.warn "Cannot insert session in remote monitor server. Deactivating..."],
             { s4 with remote := some "" }, none⟩
      else ⟨effs2, s4, none⟩

/-- Append `', '` for each `'-'`: Python `item_variant.replace("-", ", ")`. -/
def replaceDashChars : List Char → List Char
  | [] => []
  | c :: cs => if c = '-' then ',' :: ' ' :: replaceDashChars cs else c :: replaceDashChars cs

/-- Python `item_variant.replace("-", ", ")`. -/
def pyReplaceDash (s : String) : String := String.mk (replaceDashChars s.data)

/-- Python `s[:-1]` applied when `s.endswith(".")`. -/
def pyStripTrailingDot (s : String) : String :=
  match s.data.getLast? with
  | some c => if c = '.' then String.mk s.data.dropLast else s
  | none => s

/-- Method `add_test_info`: scope filter, normalization (baseline subtraction,
CPU-usage ratio, timestamp formatting, component template, variant rewrite),
then the local insert and the remote post, each under its own guard. The
subtraction raises `TypeError` when the baseline was never calibrated and the
ratio raises `ZeroDivisionError` when `totalTime = 0`, exactly as the
unguarded Python expressions do. -/
def addTestInfo (s : SessionState) (ext : Externals)
    (item itemPath itemVariant itemLoc kind component : String)
    (itemStartTime totalTime userTime kernelTime memUsageRaw : Rat)
    (postResp : HttpResp (Nat × String)) : Outcome :=
  if s.scope.contains kind = false then
    ⟨[Effect.log "METRIC SKIPPED: kind not in scope"], s, none⟩
  else
    match s.memUsageBase with
    | none => ⟨[], s, some PyError.typeError⟩
    | some base =>
      let memUsage := memUsageRaw - base
      if totalTime = 0 then ⟨[], s, some PyError.zeroDivision⟩
      else
        let cpuUsage := (userTime + kernelTime) / totalTime
        let startIso := ext.isoOfTimestamp itemStartTime
        let fc0 := ext.pyFormat s.component component
        let finalComponent := pyStripTrailingDot fc0
        let variant := pyReplaceDash itemVariant
        let (dbEffs, db2) :=
          match s.db, s.eid.1 with
          | some db, some envId =>
            let row : MetricRow :=
              ⟨s.session, envId, startIso, item, itemPath, variant, itemLoc, kind,
               finalComponent, totalTime, userTime, kernelTime, cpuUsage, memUsage⟩
            ([Effect.dbInsertMetric row], some (db.insertMetric row))
          | d, _ => ([], d)
        let sLocal := { s with db := db2 }
        match s.eid.2 with
        | some ctxH =>
          if truthy s.remote then
            let url := (s.remote.getD "") ++ "/metrics/"
            let rrow : MetricRow :=
              ⟨s.session, ctxH, startIso, item, itemPath, variant, itemLoc, kind,
               finalComponent, totalTime, userTime, kernelTime, cpuUsage, memUsage⟩
            let effs := dbEffs ++ [Effect.remotePostMetric url rrow]
            match postResp with
            | .raised _ => ⟨effs, sLocal, some PyError.transport⟩
            | .ok (status, _) =>
              if status = statusCreated then
                ⟨effs ++ [Effect.log "METRIC OK"], sLocal, none⟩
              else
                ⟨effs ++ [Effect.log "METRIC FAILED",
                          Effect.warn "Cannot insert values in remote monitor server. Deactivating..."],
                 { sLocal with remote := some "" }, none⟩
          else ⟨dbEffs, sLocal, none⟩
        | none =>
          if truthy s.remote then
            ⟨dbEffs ++ [Effect.log "METRIC SKIPPED: no remote env id"], sLocal, none⟩
          else ⟨dbEffs, sLocal, none⟩

/-- Method `add_system_memory_snapshot`: early return when the remote sink is
falsy; otherwise increment the test-order counter, post the snapshot, and
swallow every failure (non-CREATED is only logged, a raised transport
exception is caught by the `try`/`except` and logged). -/
def addSystemMemorySnapshot (s : SessionState) (itemPath item : String)
    (stats : SysSample) (postResp : HttpResp Nat) : Outcome :=
  if truthy s.remote = false then ⟨[], s, none⟩
  else
    let order := s.testOrder + 1
    let s2 := { s with testOrder := order }
    let url := (s.remote.getD "") ++ "/system-memory/"
    let eff := Effect.remotePostSysMem url s.session order itemPath item stats
    match postResp with
    | .raised _ => ⟨[eff, Effect.log "SYSMEM ERROR"], s2, none⟩
    | .ok status =>
      if status = statusCreated then ⟨[eff], s2, none⟩
      else ⟨[eff, Effect.log "SYSMEM FAILED"], s2, none⟩

/-- Metric row carried by a metric-write effect, if any. -/
def metricRowOf : Effect → Option MetricRow
  | .dbInsertMetric r => some r
  | .remotePostMetric _ r => some r
  | _ => none

/-- Metric rows recorded by an outcome, on either sink. -/
def Outcome.metricRows (o : Outcome) : List MetricRow :=
  o.effects.filterMap metricRowOf

/-- Concrete externals for the evaluation witnesses. -/
def extW : Externals :=
  { md5hex := fun s => "md5:" ++ s
    scmRevision := "rev0"
    nowIso := "2026-10-12T00:00:00"
    ciInfo := [("pipeline_branch", "main")]
    isoOfTimestamp := fun _ => "1970-01-01T00:00:10"
    memSample := 100
    pyFormat := fun t _ => t }

/-- Concrete local store already holding one registered context. -/
def dbW : LocalDB := { contexts := ["ctx1"], sessions := [], metrics := [] }

/-- Concrete session state with both sinks configured, ids resolved and the
baseline calibrated. -/
def stW : SessionState :=
  { db := some dbW
    monitorEnabled := true
    remote := some "http://monitor"
    component := ""
    session := "sess"
    scope := ["function"]
    eid := (some "ctx1", some "rctx")
    memUsageBase := some 100
    testOrder := 0 }

/-- Variant of `stW` with no remote sink (local-only deployment). -/
def stL : SessionState := { stW with remote := none, eid := (some "ctx1", none) }

/-- Concrete execution context whose fingerprint is already in `dbW`. -/
def envW : ExecutionContext := ⟨"ctx1", [("os", "linux")]⟩

/-- Concrete execution context not yet registered anywhere. -/
def envN : ExecutionContext := ⟨"ctx2", [("os", "linux")]⟩

/-- Concrete host statistics for snapshot witnesses. -/
def statsW : SysSample := ⟨16000, 8000, 8000, 50, 300, 400, 0⟩

/-- Appending an element makes `contains` find it. -/
theorem contains_append_self (l : List String) (a : String) :
    (l ++ [a]).contains a = true := by
  simp

/-- Re-querying the store right after inserting a context finds the new row. -/
theorem queryCtx_insert (db : LocalDB) (h : String) :
    (db.insertExecutionContext h).queryCtx h = some h := by
  simp [LocalDB.queryCtx, LocalDB.insertExecutionContext, contains_append_self]

/-- With a falsy remote sink, `get_env_id` performs no remote call and yields
no remote id. -/
theorem getEnvId_disabled (s : SessionState) (env : ExecutionContext)
    (g : HttpResp (Nat × List String)) (h : truthy s.remote = false) :
    getEnvId s env g = ([], Except.ok (localLookup s env, none)) := by
  simp [getEnvId, h]

/-- With a falsy remote sink and no local store, `set_environment_info` is a
pure id-resolution: no effect, both ids `None`, no exception. -/
theorem sei_disabled_nodb (s : SessionState) (env : ExecutionContext)
    (g : HttpResp (Nat × List String)) (c : HttpResp (Nat × String))
    (hr : truthy s.remote = false) (hdb : s.db = none) :
    setEnvironmentInfo s env g c = ⟨[], { s with eid := (none, none) }, none⟩ := by
  simp [setEnvironmentInfo, getEnvId_disabled _ _ _ hr, localLookup, hdb, seiRemote, hr]

/-- With a falsy remote sink and the fingerprint already stored, the store is
untouched and the local id is the stored key. -/
theorem sei_disabled_found (s : SessionState) (env : ExecutionContext)
    (g : HttpResp (Nat × List String)) (c : HttpResp (Nat × String)) (db0 : LocalDB)
    (hr : truthy s.remote = false) (hdb : s.db = some db0)
    (hc : db0.contexts.contains env.hash = true) :
    setEnvironmentInfo s env g c = ⟨[], { s with eid := (some env.hash, none) }, none⟩ := by
  have hm : env.hash ∈ db0.contexts := by simpa using hc
  simp [setEnvironmentInfo, getEnvId_disabled _ _ _ hr, localLookup, hdb,
        LocalDB.queryCtx, hm, seiRemote, hr]

/-- With a falsy remote sink and the fingerprint absent, exactly one context
row is inserted and the local id is the re-queried key. -/
theorem sei_disabled_absent (s : SessionState) (env : ExecutionContext)
    (g : HttpResp (Nat × List String)) (c : HttpResp (Nat × String)) (db0 : LocalDB)
    (hr : truthy s.remote = false) (hdb : s.db = some db0)
    (hc : db0.contexts.contains env.hash = false) :
    setEnvironmentInfo s env g c =
      ⟨[Effect.dbInsertContext env.hash],
       { s with db := some (db0.insertExecutionContext env.hash),
                eid := (some env.hash, none) }, none⟩ := by
  have hm : env.hash ∉ db0.contexts := by simpa using hc
  simp [setEnvironmentInfo, getEnvId_disabled _ _ _ hr, localLookup, hdb,
        LocalDB.queryCtx, hm, queryCtx_insert, seiRemote, hr,
        LocalDB.insertExecutionContext]

/-- With a falsy remote sink, `set_environment_info` leaves the remote flag
unchanged, performs no remote call, and raises nothing. -/
theorem sei_disabled (s : SessionState) (env : ExecutionContext)
    (g : HttpResp (Nat × List String)) (c : HttpResp (Nat × String))
    (hr : truthy s.remote = false) :
    (setEnvironmentInfo s env g c).state.remote = s.remote ∧
    (setEnvironmentInfo s env g c).effects.filter Effect.isRemoteCall = [] ∧
    (setEnvironmentInfo s env g c).err = none := by
  cases hdb : s.db with
  | none => simp [sei_disabled_nodb s env g c hr hdb]
  | some db0 =>
    by_cases hc : db0.contexts.contains env.hash = true
    · simp [sei_disabled_found s env g c db0 hr hdb hc]
    · simp [sei_disabled_absent s env g c db0 hr hdb (by simpa using hc),
            List.filter, Effect.isRemoteCall]

/-- The remote half of `set_environment_info` never touches the fields other
than the remote flag, the remote id and the effects. -/
theorem seiRemote_preserve (s : SessionState) (env : ExecutionContext) (effs : List Effect)
    (dbId remoteId : Option String) (c : HttpResp (Nat × String)) :
    (seiRemote s env effs dbId remoteId c).state.session = s.session ∧
    (seiRemote s env effs dbId remoteId c).state.memUsageBase = s.memUsageBase ∧
    (seiRemote s env effs dbId remoteId c).state.scope = s.scope ∧
    (seiRemote s env effs dbId remoteId c).state.component = s.component ∧
    (seiRemote s env effs dbId remoteId c).state.db = s.db ∧
    (seiRemote s env effs dbId remoteId c).state.testOrder = s.testOrder := by
  unfold seiRemote
  rcases c with ⟨cs, cb⟩ | m <;> dsimp only <;> split_ifs <;> simp

/-- Method `set_environment_info` only ever mutates the ids, the store, and
the remote flag. -/
theorem sei_preserve (s : SessionState) (env : ExecutionContext)
    (g : HttpResp (Nat × List String)) (c : HttpResp (Nat × String)) :
    (setEnvironmentInfo s env g c).state.session = s.session ∧
    (setEnvironmentInfo s env g c).state.memUsageBase = s.memUsageBase ∧
    (setEnvironmentInfo s env g c).state.scope = s.scope ∧
    (setEnvironmentInfo s env g c).state.component = s.component ∧
    (setEnvironmentInfo s env g c).state.testOrder = s.testOrder := by
  unfold setEnvironmentInfo
  split
  · simp
  · dsimp only
    split
    · split
      · simp
      · simp [seiRemote_preserve]
    · simp [seiRemote_preserve]

/-- With a truthy remote sink, `get_env_id` issues the lookup call and
extracts ids from the parsed response. -/
theorem getEnvId_enabled_ok (s : SessionState) (env : ExecutionContext)
    (st : Nat) (ctxs : List String) (hr : truthy s.remote = true) :
    getEnvId s env (HttpResp.ok (st, ctxs)) =
      ([Effect.remoteGetContexts ((s.remote.getD "") ++ "/contexts/" ++ env.hash)],
       Except.ok (localLookup s env, remoteIdOf st ctxs)) := by
  simp [getEnvId, hr]

/-- An empty `contexts` array yields no remote id, whatever the status. -/
theorem remoteIdOf_nil (st : Nat) : remoteIdOf st [] = none := by
  unfold remoteIdOf
  split_ifs <;> rfl

/-- A non-CREATED response to the context post warns and clears the remote
flag (the one-way disable of the context registration path). -/
theorem seiRemote_reject (s : SessionState) (env : ExecutionContext) (effs : List Effect)
    (dbId : Option String) (status : Nat) (b : String)
    (hr : truthy s.remote = true) (hs : status ≠ statusCreated) :
    seiRemote s env effs dbId none (HttpResp.ok (status, b)) =
      ⟨effs ++ [Effect.remotePostContext ((s.remote.getD "") ++ "/contexts/") env.payload,
                Effect.warn "Cannot insert execution context in remote server. Deactivating..."],
       { s with remote := some "", eid := (dbId, none) }, none⟩ := by
  simp [seiRemote, hr, hs]

/-- A non-CREATED response while registering a context through
`set_environment_info` permanently clears the remote flag without raising. -/
theorem sei_reject_disables (s : SessionState) (env : ExecutionContext)
    (st status : Nat) (b : String)
    (hr : truthy s.remote = true) (hs : status ≠ statusCreated) :
    (setEnvironmentInfo s env (HttpResp.ok (st, [])) (HttpResp.ok (status, b))).state.remote
        = some "" ∧
    (setEnvironmentInfo s env (HttpResp.ok (st, [])) (HttpResp.ok (status, b))).err = none := by
  unfold setEnvironmentInfo
  rw [getEnvId_enabled_ok s env st [] hr, remoteIdOf_nil]
  dsimp only
  split
  · rw [queryCtx_insert]
    dsimp only
    rw [seiRemote_reject _ env _ _ status b (by simpa using hr) hs]
    simp
  · rw [seiRemote_reject _ env _ _ status b (by simpa using hr) hs]
    simp

/-- The only exception `get_env_id` can raise is a propagated transport
error from the lookup call. -/
theorem getEnvId_err (s : SessionState) (env : ExecutionContext)
    (g : HttpResp (Nat × List String)) (effs : List Effect) (e : PyError)
    (h : getEnvId s env g = (effs, Except.error e)) : e = PyError.transport := by
  unfold getEnvId at h
  rcases g with ⟨st, ctxs⟩ | m <;> split_ifs at h <;> simp_all

/-- The remote half of `set_environment_info` raises nothing but propagated
transport errors. -/
theorem seiRemote_err (s : SessionState) (env : ExecutionContext) (effs : List Effect)
    (dbId remoteId : Option String) (c : HttpResp (Nat × String)) :
    (seiRemote s env effs dbId remoteId c).err = none ∨
    (seiRemote s env effs dbId remoteId c).err = some PyError.transport := by
  unfold seiRemote
  rcases c with ⟨cs, cb⟩ | m <;> dsimp only <;> split_ifs <;> simp

/-- Method `set_environment_info` either succeeds or propagates a transport
error; in particular it never raises an `IndexError`. -/
theorem sei_err (s : SessionState) (env : ExecutionContext)
    (g : HttpResp (Nat × List String)) (c : HttpResp (Nat × String)) :
    (setEnvironmentInfo s env g c).err = none ∨
    (setEnvironmentInfo s env g c).err = some PyError.transport := by
  unfold setEnvironmentInfo
  split
  next effs e heq =>
    have he := getEnvId_err s env g effs e heq
    simp [he]
  next effs dbId0 remoteId0 heq =>
    dsimp only
    split
    · split
      next hq => simp [queryCtx_insert] at hq
      next hkey hq => exact seiRemote_err _ env _ _ _ c
    · exact seiRemote_err _ env _ _ _ c

/-- With a falsy remote sink, `add_test_info` leaves the flag unchanged and
dispatches nothing to the remote sink. -/
theorem ati_disabled (s : SessionState) (ext : Externals)
    (item itemPath itemVariant itemLoc kind component : String)
    (t0 t1 t2 t3 t4 : Rat) (r : HttpResp (Nat × String))
    (hr : truthy s.remote = false) :
    (addTestInfo s ext item itemPath itemVariant itemLoc kind component
        t0 t1 t2 t3 t4 r).state.remote = s.remote ∧
    (addTestInfo s ext item itemPath itemVariant itemLoc kind component
        t0 t1 t2 t3 t4 r).effects.filter Effect.isRemoteCall = [] := by
  unfold addTestInfo
  split
  · simp [Effect.isRemoteCall]
  · split
    · simp
    · dsimp only
      split
      · simp
      · rcases hdb : s.db with _ | db0 <;> rcases he1 : s.eid.1 with _ | envId <;>
          rcases he2 : s.eid.2 with _ | ctxH <;>
            simp [hdb, he1, he2, hr, Effect.isRemoteCall]

/-- Whenever the remote post returns a response (of any status),
`add_test_info` raises nothing, provided the metric is in scope, the baseline
is calibrated and the elapsed time is non-zero. -/
theorem ati_ok_noraise (s : SessionState) (ext : Externals)
    (item itemPath itemVariant itemLoc kind component : String)
    (t0 t1 t2 t3 t4 : Rat) (base : Rat) (status : Nat) (btxt : String)
    (hscope : s.scope.contains kind = true) (hbase : s.memUsageBase = some base)
    (htot : t1 ≠ 0) :
    (addTestInfo s ext item itemPath itemVariant itemLoc kind component t0 t1 t2 t3 t4
      (HttpResp.ok (status, btxt))).err = none := by
  unfold addTestInfo
  rcases hdb : s.db with _ | db0 <;> rcases he1 : s.eid.1 with _ | envId <;>
    rcases he2 : s.eid.2 with _ | ctxH <;>
      simp [hscope, hbase, htot, hdb, he1, he2] <;> split_ifs <;> simp

/-- A non-CREATED response to the metric post is converted into a warning and
a cleared remote flag, with no exception to the caller. -/
theorem ati_reject (s : SessionState) (ext : Externals)
    (item itemPath itemVariant itemLoc kind component : String)
    (t0 t1 t2 t3 t4 : Rat) (base : Rat) (status : Nat) (btxt ctxH : String)
    (hr : truthy s.remote = true) (he2 : s.eid.2 = some ctxH)
    (hscope : s.scope.contains kind = true) (hbase : s.memUsageBase = some base)
    (htot : t1 ≠ 0) (hs : status ≠ statusCreated) :
    (addTestInfo s ext item itemPath itemVariant itemLoc kind component t0 t1 t2 t3 t4
      (HttpResp.ok (status, btxt))).state.remote = some "" ∧
    (addTestInfo s ext item itemPath itemVariant itemLoc kind component t0 t1 t2 t3 t4
      (HttpResp.ok (status, btxt))).err = none ∧
    Effect.warn "Cannot insert values in remote monitor server. Deactivating..." ∈
      (addTestInfo s ext item itemPath itemVariant itemLoc kind component t0 t1 t2 t3 t4
        (HttpResp.ok (status, btxt))).effects := by
  have hm : kind ∈ s.scope := by simpa using hscope
  unfold addTestInfo
  rcases hdb : s.db with _ | db0 <;> rcases he1 : s.eid.1 with _ | envId <;>
    simp [hm, hscope, hbase, htot, hdb, he1, he2, hr, hs]

/-- Every metric row recorded by `add_test_info`, on either sink, carries the
normalized CPU-usage ratio and baseline-subtracted memory delta. -/
theorem ati_rows (s : SessionState) (ext : Externals)
    (item itemPath itemVariant itemLoc kind component : String)
    (t0 t1 t2 t3 t4 : Rat) (base : Rat) (r : HttpResp (Nat × String))
    (hscope : s.scope.contains kind = true) (hbase : s.memUsageBase = some base)
    (htot : t1 ≠ 0) :
    ∀ row ∈ (addTestInfo s ext item itemPath itemVariant itemLoc kind component
        t0 t1 t2 t3 t4 r).metricRows,
      row.cpuUsage = (t2 + t3) / t1 ∧ row.memUsage = t4 - base := by
  have hm : kind ∈ s.scope := by simpa using hscope
  unfold addTestInfo Outcome.metricRows
  rcases r with ⟨status, btxt⟩ | m <;>
    rcases hdb : s.db with _ | db0 <;> rcases he1 : s.eid.1 with _ | envId <;>
      rcases he2 : s.eid.2 with _ | ctxH <;>
        simp [hm, hscope, hbase, htot, hdb, he1, he2, metricRowOf] <;>
          split_ifs <;> simp [metricRowOf] <;> aesop

/-- With a configured store and resolved local id, an in-scope metric write
reaches the local store exactly once, for any remote response. -/
theorem ati_local_write (s : SessionState) (ext : Externals)
    (item itemPath itemVariant itemLoc kind component : String)
    (t0 t1 t2 t3 t4 : Rat) (base : Rat) (db0 : LocalDB) (envId : String)
    (r : HttpResp (Nat × String))
    (hdb : s.db = some db0) (he1 : s.eid.1 = some envId)
    (hscope : s.scope.contains kind = true) (hbase : s.memUsageBase = some base)
    (htot : t1 ≠ 0) :
    ((addTestInfo s ext item itemPath itemVariant itemLoc kind component
        t0 t1 t2 t3 t4 r).effects.filter Effect.isLocalWrite).length = 1 := by
  have hm : kind ∈ s.scope := by simpa using hscope
  unfold addTestInfo
  rcases r with ⟨status, btxt⟩ | m <;>
    rcases he2 : s.eid.2 with _ | ctxH <;>
      simp [hm, hscope, hbase, htot, hdb, he1, he2, Effect.isLocalWrite] <;>
        split_ifs <;> simp [Effect.isLocalWrite]

/-- When the separator is absent the split yields nothing. -/
theorem splitAtFirst_none_of (sep : Char) (l : List Char)
    (h : l.contains sep = false) : splitAtFirst sep l = none := by
  induction l with
  | nil => rfl
  | cons c cs ih =>
    simp only [List.contains_cons, Bool.or_eq_false_iff] at h
    have hc : ¬ c = sep := by
      intro hcc
      simp [hcc] at h
    simp [splitAtFirst, hc, ih (by simpa using h.2)]

/-- When the separator occurs the split yields two pieces. -/
theorem splitAtFirst_some_of (sep : Char) (l : List Char)
    (h : l.contains sep = true) : ∃ a b, splitAtFirst sep l = some (a, b) := by
  induction l with
  | nil => simp at h
  | cons c cs ih =>
    by_cases hc : c = sep
    · exact ⟨[], cs, by simp [splitAtFirst, hc]⟩
    · have hcs : cs.contains sep = true := by
        simp only [List.contains_cons] at h
        rcases Bool.or_eq_true_iff.mp h with h1 | h2
        · exact absurd (Eq.symm (show sep = c by simpa using h1)) hc
        · exact h2
      obtain ⟨a, b, hab⟩ := ih hcs
      exact ⟨c :: a, b, by simp [splitAtFirst, hc, hab]⟩

/-- A tag string without the separator raises `IndexError` on the second
subscript. -/
theorem applyTagStr_err (d : List (String × String)) (t : String)
    (h : t.data.contains '=' = false) :
    applyTagStr d t = Except.error PyError.indexError := by
  simp [applyTagStr, splitEq1, splitAtFirst_none_of _ _ h]

/-- A tag string containing the separator is processed successfully. -/
theorem applyTagStr_ok (d : List (String × String)) (t : String)
    (h : t.data.contains '=' = true) :
    ∃ d2, applyTagStr d t = Except.ok d2 := by
  obtain ⟨a, b, hab⟩ := splitAtFirst_some_of '=' t.data h
  exact ⟨dictSet d (String.mk a) (String.mk b), by simp [applyTagStr, splitEq1, hab]⟩

/-- A nested tag sequence of well-formed strings is processed successfully. -/
theorem applyTagStrs_ok (ts : List String) (d : List (String × String))
    (h : ∀ x ∈ ts, x.data.contains '=' = true) :
    ∃ d2, applyTagStrs d ts = Except.ok d2 := by
  induction ts generalizing d with
  | nil => exact ⟨d, rfl⟩
  | cons t ts ih =>
    obtain ⟨d1, hd1⟩ := applyTagStr_ok d t (h t (by simp))
    obtain ⟨d2, hd2⟩ := ih d1 (fun x hx => h x (by simp [hx]))
    exact ⟨d2, by simp [applyTagStrs, hd1, hd2]⟩

/-- A nested tag sequence with a separator-free string raises `IndexError`. -/
theorem applyTagStrs_err (ts : List String) (d : List (String × String))
    (h : ∃ x ∈ ts, x.data.contains '=' = false) :
    applyTagStrs d ts = Except.error PyError.indexError := by
  induction ts generalizing d with
  | nil => simp at h
  | cons t ts ih =>
    by_cases ht : t.data.contains '=' = true
    · obtain ⟨d1, hd1⟩ := applyTagStr_ok d t ht
      have hex : ∃ x ∈ ts, x.data.contains '=' = false := by
        obtain ⟨x, hx, hxf⟩ := h
        rcases List.mem_cons.mp hx with rfl | hxs
        · rw [ht] at hxf; cases hxf
        · exact ⟨x, hxs, hxf⟩
      simp [applyTagStrs, hd1, ih d1 hex]
    · simp [applyTagStrs, applyTagStr_err d t (by simpa using ht)]

/-- A tag whose strings all contain the separator is processed successfully. -/
theorem applyTag_ok (t : Tag) (d : List (String × String))
    (h : ∀ x ∈ tagStrings t, x.data.contains '=' = true) :
    ∃ d2, applyTag d t = Except.ok d2 := by
  cases t with
  | single x => simpa [applyTag, tagStrings] using applyTagStr_ok d x (h x (by simp [tagStrings]))
  | group l => simpa [applyTag, tagStrings] using applyTagStrs_ok l d (by simpa [tagStrings] using h)

/-- A tag carrying a separator-free string raises `IndexError`. -/
theorem applyTag_err (t : Tag) (d : List (String × String))
    (h : ∃ x ∈ tagStrings t, x.data.contains '=' = false) :
    applyTag d t = Except.error PyError.indexError := by
  cases t with
  | single x =>
    obtain ⟨y, hy, hyf⟩ := h
    simp only [tagStrings, List.mem_singleton] at hy
    subst hy
    simp [applyTag, applyTagStr_err d y hyf]
  | group l => simpa [applyTag, tagStrings] using applyTagStrs_err l d (by simpa [tagStrings] using h)

/-- The tag loop succeeds when every tag string contains the separator. -/
theorem applyTags_ok (tags : List Tag) (d : List (String × String))
    (h : ∀ t ∈ tags, ∀ x ∈ tagStrings t, x.data.contains '=' = true) :
    ∃ d2, applyTags d tags = Except.ok d2 := by
  induction tags generalizing d with
  | nil => exact ⟨d, rfl⟩
  | cons t ts ih =>
    obtain ⟨d1, hd1⟩ := applyTag_ok t d (h t (by simp))
    obtain ⟨d2, hd2⟩ := ih d1 (fun u hu => h u (by simp [hu]))
    exact ⟨d2, by simp [applyTags, hd1, hd2]⟩

/-- The tag loop raises `IndexError` when some tag string lacks the
separator. -/
theorem applyTags_err (tags : List Tag) (d : List (String × String))
    (h : ∃ t ∈ tags, ∃ x ∈ tagStrings t, x.data.contains '=' = false) :
    applyTags d tags = Except.error PyError.indexError := by
  induction tags generalizing d with
  | nil => simp at h
  | cons t ts ih =>
    by_cases ht : ∀ x ∈ tagStrings t, x.data.contains '=' = true
    · obtain ⟨d1, hd1⟩ := applyTag_ok t d ht
      have hex : ∃ u ∈ ts, ∃ x ∈ tagStrings u, x.data.contains '=' = false := by
        obtain ⟨u, hu, hx⟩ := h
        rcases List.mem_cons.mp hu with rfl | hus
        · obtain ⟨x, hx1, hx2⟩ := hx
          rw [ht x hx1] at hx2; cases hx2
        · exact ⟨u, hus, hx⟩
      simp [applyTags, hd1, ih d1 hex]
    · push_neg at ht
      obtain ⟨x, hx1, hx2⟩ := ht
      simp [applyTags, applyTag_err t d ⟨x, hx1, by simpa using hx2⟩]

/-- The session hash set by `compute_info` is the digest of revision,
run date and description concatenated in that order, whatever the tags, CI
info and sink responses. -/
theorem ci_session (s : SessionState) (ext : Externals) (description : String)
    (tags : List Tag) (env : ExecutionContext)
    (g : HttpResp (Nat × List String)) (c : HttpResp (Nat × String))
    (r : HttpResp Nat) :
    (computeInfo s ext description tags env g c r).state.session =
      ext.md5hex (ext.scmRevision ++ ext.nowIso ++ description) := by
  unfold computeInfo
  dsimp only
  split
  · simp
  next d2 heq2 =>
    have hp := (sei_preserve
      (prepare { s with session := ext.md5hex (ext.scmRevision ++ ext.nowIso ++ description) }
        ext) env g c).1
    split
    next effs s3 e hsei =>
      rw [hsei] at hp
      simpa [prepare] using hp
    next effs s3 hsei =>
      rw [hsei] at hp
      dsimp only at hp ⊢
      rcases r with st | m <;>
        rcases hdb : s3.db with _ | db0 <;>
          simp [hdb, prepare] at hp ⊢ <;> split_ifs <;> simp [hp]

/-- With a falsy remote sink, `compute_info` leaves the flag unchanged and
dispatches nothing to the remote sink. -/
theorem ci_disabled (s : SessionState) (ext : Externals) (description : String)
    (tags : List Tag) (env : ExecutionContext)
    (g : HttpResp (Nat × List String)) (c : HttpResp (Nat × String))
    (r : HttpResp Nat) (hr : truthy s.remote = false) :
    (computeInfo s ext description tags env g c r).state.remote = s.remote ∧
    (computeInfo s ext description tags env g c r).effects.filter Effect.isRemoteCall = [] := by
  unfold computeInfo
  dsimp only
  split
  · simp
  next d2 heq2 =>
    have hd := sei_disabled
      (prepare { s with session := ext.md5hex (ext.scmRevision ++ ext.nowIso ++ description) }
        ext) env g c (by simpa [prepare] using hr)
    split
    next effs s3 e hsei =>
      rw [hsei] at hd
      simp at hd
    next effs s3 hsei =>
      rw [hsei] at hd
      dsimp only at hd ⊢
      have hrem : s3.remote = s.remote := by simpa [prepare] using hd.1
      rcases r with st | m <;>
        rcases hdb : s3.db with _ | db0 <;>
          simp [hdb, prepare, hrem, hr, hd.2.1, Effect.isRemoteCall]

/-- With a truthy remote, no local store, and a lookup response carrying at
least one context, `set_environment_info` only performs the lookup and adopts
the first returned id. -/
theorem sei_enabled_found_nodb (s : SessionState) (env : ExecutionContext)
    (cH : String) (rest : List String) (c : HttpResp (Nat × String))
    (hr : truthy s.remote = true) (hdb : s.db = none) :
    setEnvironmentInfo s env (HttpResp.ok (statusOK, cH :: rest)) c =
      ⟨[Effect.remoteGetContexts ((s.remote.getD "") ++ "/contexts/" ++ env.hash)],
       { s with eid := (none, some cH) }, none⟩ := by
  unfold setEnvironmentInfo
  rw [getEnvId_enabled_ok s env statusOK (cH :: rest) hr]
  dsimp only
  simp [localLookup, hdb, remoteIdOf, seiRemote]

/-- On every run of `compute_info` that gets past tag parsing, the baseline
is calibrated to the `memory_profiler` sample before any metric is recorded. -/
theorem ci_membase (s : SessionState) (ext : Externals) (description : String)
    (tags : List Tag) (env : ExecutionContext)
    (g : HttpResp (Nat × List String)) (c : HttpResp (Nat × String))
    (r : HttpResp Nat)
    (htags : ∀ t ∈ tags, ∀ x ∈ tagStrings t, x.data.contains '=' = true) :
    (computeInfo s ext description tags env g c r).state.memUsageBase =
      some ext.memSample := by
  obtain ⟨d2, hd2⟩ := applyTags_ok tags _ htags
  unfold computeInfo
  dsimp only
  rw [hd2]
  dsimp only
  have hp := (sei_preserve
    (prepare { s with session := ext.md5hex (ext.scmRevision ++ ext.nowIso ++ description) }
      ext) env g c).2.1
  split
  next effs s3 e hsei =>
    rw [hsei] at hp
    simpa [prepare] using hp
  next effs s3 hsei =>
    rw [hsei] at hp
    dsimp only at hp ⊢
    have hm : s3.memUsageBase = some ext.memSample := by simpa [prepare] using hp
    rcases r with st | m <;>
      rcases hdb : s3.db with _ | db0 <;>
        simp [hdb, prepare, hm] <;> split_ifs <;> simp [hm]

/-- A non-CREATED response to the session post clears the remote flag
without raising. -/
theorem ci_session_reject (s : SessionState) (ext : Externals) (description : String)
    (tags : List Tag) (env : ExecutionContext) (cH : String) (rest : List String)
    (c : HttpResp (Nat × String)) (status : Nat)
    (hr : truthy s.remote = true) (hdb : s.db = none)
    (htags : ∀ t ∈ tags, ∀ x ∈ tagStrings t, x.data.contains '=' = true)
    (hs : status ≠ statusCreated) :
    (computeInfo s ext description tags env (HttpResp.ok (statusOK, cH :: rest)) c
        (HttpResp.ok status)).state.remote = some "" ∧
    (computeInfo s ext description tags env (HttpResp.ok (statusOK, cH :: rest)) c
        (HttpResp.ok status)).err = none := by
  obtain ⟨d2, hd2⟩ := applyTags_ok tags _ htags
  unfold computeInfo
  dsimp only
  rw [hd2]
  dsimp only
  rw [sei_enabled_found_nodb
    (prepare { s with session := ext.md5hex (ext.scmRevision ++ ext.nowIso ++ description) }
      ext) env cH rest c (by simpa [prepare] using hr) (by simpa [prepare] using hdb)]
  dsimp only
  simp [prepare, hdb, hr, hs]

/-- When every tag string contains the separator, `compute_info` can raise
only propagated transport errors, never an `IndexError`. -/
theorem ci_no_index (s : SessionState) (ext : Externals) (description : String)
    (tags : List Tag) (env : ExecutionContext)
    (g : HttpResp (Nat × List String)) (c : HttpResp (Nat × String))
    (r : HttpResp Nat)
    (htags : ∀ t ∈ tags, ∀ x ∈ tagStrings t, x.data.contains '=' = true) :
    (computeInfo s ext description tags env g c r).err ≠ some PyError.indexError := by
  obtain ⟨d2, hd2⟩ := applyTags_ok tags _ htags
  unfold computeInfo
  dsimp only
  rw [hd2]
  dsimp only
  have he := sei_err
    (prepare { s with session := ext.md5hex (ext.scmRevision ++ ext.nowIso ++ description) }
      ext) env g c
  split
  next effs s3 e hsei =>
    rw [hsei] at he
    rcases he with h | h <;> simp at h ⊢ <;> simp [h]
  next effs s3 hsei =>
    rcases r with st | m <;> rcases hdb : s3.db with _ | db0 <;>
      simp [hdb] <;> split_ifs <;> simp

/-- Claim C1, counterexample: at this concrete dispatch a transport error
raised by the remote metric post propagates out of `add_test_info` to the
instrumented test, so not every sink failure is caught at the dispatch
boundary. -/
theorem c1_counterexample :
    (addTestInfo stW extW "test_a" "p.py" "v" "loc" "function" "comp" 0 1 (6/10) (1/10) 120
      (HttpResp.raised "connection refused")).err = some PyError.transport := by decide

/-- Claim C1, amended: for an in-scope metric with calibrated baseline and
non-zero elapsed time, any response received by the remote metric post leaves
`add_test_info` raising nothing to the instrumented test, and a rejection
(non-CREATED status) is converted into a warning plus the health-flag
transition; a transport exception raised by the post, however, is not caught
and propagates (see the counterexample). -/
theorem c1_sink_rejection_caught (s : SessionState) (ext : Externals)
    (item itemPath itemVariant itemLoc kind component : String)
    (t0 t1 t2 t3 t4 base : Rat) (status : Nat) (btxt ctxH : String)
    (hscope : s.scope.contains kind = true) (hbase : s.memUsageBase = some base)
    (htot : t1 ≠ 0) :
    (addTestInfo s ext item itemPath itemVariant itemLoc kind component t0 t1 t2 t3 t4
      (HttpResp.ok (status, btxt))).err = none ∧
    (truthy s.remote = true → s.eid.2 = some ctxH → status ≠ statusCreated →
      (addTestInfo s ext item itemPath itemVariant itemLoc kind component t0 t1 t2 t3 t4
        (HttpResp.ok (status, btxt))).state.remote = some "" ∧
      Effect.warn "Cannot insert values in remote monitor server. Deactivating..." ∈
        (addTestInfo s ext item itemPath itemVariant itemLoc kind component t0 t1 t2 t3 t4
          (HttpResp.ok (status, btxt))).effects) :=
  ⟨ati_ok_noraise s ext item itemPath itemVariant itemLoc kind component t0 t1 t2 t3 t4
      base status btxt hscope hbase htot,
   fun hr he2 hs =>
     have h := ati_reject s ext item itemPath itemVariant itemLoc kind component t0 t1 t2 t3 t4
       base status btxt ctxH hr he2 hscope hbase htot hs
     ⟨h.1, h.2.2⟩⟩

/-- Claim C1, witness: a 500 rejection at a concrete dispatch raises nothing
and disables the remote sink. -/
theorem c1_witness :
    (addTestInfo stW extW "t" "p" "v" "l" "function" "c" 0 1 1 1 120
      (HttpResp.ok (500, "err"))).err = none ∧
    (addTestInfo stW extW "t" "p" "v" "l" "function" "c" 0 1 1 1 120
      (HttpResp.ok (500, "err"))).state.remote = some "" := by
  have h := c1_sink_rejection_caught stW extW "t" "p" "v" "l" "function" "c" 0 1 1 1 120 100
    500 "err" "rctx" (by decide) rfl (by norm_num)
  exact ⟨h.1, (h.2 (by decide) rfl (by decide)).1⟩

/-- Claim C2: the remote-sink health flag starts enabled for a configured
remote; a non-CREATED response to the context, metric or session operation
permanently clears it; with the flag falsy, every operation (environment
resolution, session establishment, metric dispatch, snapshot) leaves the flag
unchanged and attempts no remote call; and the local metric write still
happens with the remote disabled. -/
theorem c2_remote_flag_one_way :
    (∀ db url component scope tracing, url ≠ "" →
       truthy (initSession db (some url) component scope tracing).remote = true) ∧
    (∀ s env st status b, truthy s.remote = true → status ≠ statusCreated →
       (setEnvironmentInfo s env (HttpResp.ok (st, []))
          (HttpResp.ok (status, b))).state.remote = some "") ∧
    (∀ (s : SessionState) (ext : Externals)
       (item itemPath itemVariant itemLoc kind component : String)
       (t0 t1 t2 t3 t4 base : Rat) (status : Nat) (btxt ctxH : String),
       truthy s.remote = true → s.eid.2 = some ctxH → s.scope.contains kind = true →
       s.memUsageBase = some base → t1 ≠ 0 → status ≠ statusCreated →
       (addTestInfo s ext item itemPath itemVariant itemLoc kind component t0 t1 t2 t3 t4
          (HttpResp.ok (status, btxt))).state.remote = some "") ∧
    (∀ (s : SessionState) (ext : Externals) (description : String) (tags : List Tag)
       (env : ExecutionContext) (cH : String) (rest : List String)
       (c : HttpResp (Nat × String)) (status : Nat),
       truthy s.remote = true → s.db = none →
       (∀ t ∈ tags, ∀ x ∈ tagStrings t, x.data.contains '=' = true) →
       status ≠ statusCreated →
       (computeInfo s ext description tags env (HttpResp.ok (statusOK, cH :: rest)) c
          (HttpResp.ok status)).state.remote = some "") ∧
    (∀ s env g c, truthy s.remote = false →
       (setEnvironmentInfo s env g c).state.remote = s.remote ∧
       (setEnvironmentInfo s env g c).effects.filter Effect.isRemoteCall = []) ∧
    (∀ (s : SessionState) (ext : Externals)
       (item itemPath itemVariant itemLoc kind component : String)
       (t0 t1 t2 t3 t4 : Rat) (r : HttpResp (Nat × String)), truthy s.remote = false →
       (addTestInfo s ext item itemPath itemVariant itemLoc kind component
          t0 t1 t2 t3 t4 r).state.remote = s.remote ∧
       (addTestInfo s ext item itemPath itemVariant itemLoc kind component
          t0 t1 t2 t3 t4 r).effects.filter Effect.isRemoteCall = []) ∧
    (∀ (s : SessionState) (ext : Externals) (description : String) (tags : List Tag)
       (env : ExecutionContext) (g : HttpResp (Nat × List String))
       (c : HttpResp (Nat × String)) (r : HttpResp Nat), truthy s.remote = false →
       (computeInfo s ext description tags env g c r).state.remote = s.remote ∧
       (computeInfo s ext description tags env g c r).effects.filter
          Effect.isRemoteCall = []) ∧
    (∀ (s : SessionState) (itemPath item : String) (stats : SysSample) (r : HttpResp Nat),
       truthy s.remote = false →
       addSystemMemorySnapshot s itemPath item stats r = ⟨[], s, none⟩) ∧
    (∀ (s : SessionState) (ext : Externals)
       (item itemPath itemVariant itemLoc kind component : String)
       (t0 t1 t2 t3 t4 base : Rat) (db0 : LocalDB) (envId : String)
       (r : HttpResp (Nat × String)),
       truthy s.remote = false → s.db = some db0 → s.eid.1 = some envId →
       s.scope.contains kind = true → s.memUsageBase = some base → t1 ≠ 0 →
       ((addTestInfo s ext item itemPath itemVariant itemLoc kind component
           t0 t1 t2 t3 t4 r).effects.filter Effect.isLocalWrite).length = 1) := by
  refine ⟨?_, ?_, ?_, ?_, ?_, ?_, ?_, ?_, ?_⟩
  · intro db url component scope tracing hu
    simp [initSession, truthy, hu]
  · intro s env st status b hr hs
    exact (sei_reject_disables s env st status b hr hs).1
  · intro s ext item itemPath itemVariant itemLoc kind component t0 t1 t2 t3 t4 base
      status btxt ctxH hr he2 hscope hbase htot hs
    exact (ati_reject s ext item itemPath itemVariant itemLoc kind component t0 t1 t2 t3 t4
      base status btxt ctxH hr he2 hscope hbase htot hs).1
  · intro s ext description tags env cH rest c status hr hdb htags hs
    exact (ci_session_reject s ext description tags env cH rest c status hr hdb htags hs).1
  · intro s env g c hr
    exact ⟨(sei_disabled s env g c hr).1, (sei_disabled s env g c hr).2.1⟩
  · intro s ext item itemPath itemVariant itemLoc kind component t0 t1 t2 t3 t4 r hr
    exact ati_disabled s ext item itemPath itemVariant itemLoc kind component
      t0 t1 t2 t3 t4 r hr
  · intro s ext description tags env g c r hr
    exact ci_disabled s ext description tags env g c r hr
  · intro s itemPath item stats r hr
    simp [addSystemMemorySnapshot, hr]
  · intro s ext item itemPath itemVariant itemLoc kind component t0 t1 t2 t3 t4 base
      db0 envId r hr hdb he1 hscope hbase htot
    exact ati_local_write s ext item itemPath itemVariant itemLoc kind component
      t0 t1 t2 t3 t4 base db0 envId r hdb he1 hscope hbase htot

/-- Claim C2, witness: the flag starts enabled for a concrete URL; a concrete
rejected context post clears it; a concrete disabled-state metric dispatch
attempts no remote call while still writing the local row. -/
theorem c2_witness :
    truthy (initSession none (some "http://monitor") "" none true).remote = true ∧
    (setEnvironmentInfo stW envN (HttpResp.ok (200, []))
       (HttpResp.ok (500, "boom"))).state.remote = some "" ∧
    (addTestInfo stL extW "t" "p" "v" "l" "function" "c" 0 1 1 1 120
       (HttpResp.ok (201, ""))).effects.filter Effect.isRemoteCall = [] ∧
    ((addTestInfo stL extW "t" "p" "v" "l" "function" "c" 0 1 1 1 120
       (HttpResp.ok (201, ""))).effects.filter Effect.isLocalWrite).length = 1 :=
  ⟨c2_remote_flag_one_way.1 none "http://monitor" "" none true (by decide),
   c2_remote_flag_one_way.2.1 stW envN 200 500 "boom" (by decide) (by decide),
   (c2_remote_flag_one_way.2.2.2.2.2.1 stL extW "t" "p" "v" "l" "function" "c" 0 1 1 1 120
     (HttpResp.ok (201, "")) (by decide)).2,
   c2_remote_flag_one_way.2.2.2.2.2.2.2.2 stL extW "t" "p" "v" "l" "function" "c"
     0 1 1 1 120 100 dbW "ctx1" (HttpResp.ok (201, "")) (by decide) rfl rfl (by decide)
     rfl (by norm_num)⟩

/-- Claim C3: a metric whose kind is outside the configured scope makes
`add_test_info` return immediately — the state is unchanged, the only effect
is a debug log, no sink is written and nothing is raised (even when the
elapsed time is zero, since normalization is skipped). -/
theorem c3_scope_filter (s : SessionState) (ext : Externals)
    (item itemPath itemVariant itemLoc kind component : String)
    (t0 t1 t2 t3 t4 : Rat) (r : HttpResp (Nat × String))
    (h : s.scope.contains kind = false) :
    addTestInfo s ext item itemPath itemVariant itemLoc kind component t0 t1 t2 t3 t4 r =
      ⟨[Effect.log "METRIC SKIPPED: kind not in scope"], s, none⟩ := by
  have hm : kind ∉ s.scope := by simpa using h
  unfold addTestInfo
  simp [hm]

/-- Claim C3, witness: a concrete out-of-scope dispatch, with a zero elapsed
time, drops silently. -/
theorem c3_witness :
    addTestInfo stW extW "t" "p" "v" "l" "doctest" "c" 0 0 1 1 120
      (HttpResp.ok (201, "")) =
      ⟨[Effect.log "METRIC SKIPPED: kind not in scope"], stW, none⟩ :=
  c3_scope_filter stW extW "t" "p" "v" "l" "doctest" "c" 0 0 1 1 120
    (HttpResp.ok (201, "")) (by decide)

/-- Claim C4, counterexample: the implementation does not follow a defined
zero-denominator policy — at `total_time = 0` the unguarded division raises
`ZeroDivisionError` out of `add_test_info`. -/
theorem c4_counterexample :
    (addTestInfo stW extW "t" "p" "v" "l" "function" "c" 0 0 (6/10) (1/10) 120
      (HttpResp.ok (201, ""))).err = some PyError.zeroDivision := by decide

/-- Claim C4, amended: for every in-scope metric with `total_time ≠ 0` the
recorded `cpu_usage` equals `(user_time + kernel_time) / total_time` on both
sinks; at `total_time = 0` the division is unguarded and the operation raises
`ZeroDivisionError` before any sink write. -/
theorem c4_cpu_usage (s : SessionState) (ext : Externals)
    (item itemPath itemVariant itemLoc kind component : String)
    (t0 t1 t2 t3 t4 base : Rat) (r : HttpResp (Nat × String))
    (hscope : s.scope.contains kind = true) (hbase : s.memUsageBase = some base) :
    (t1 ≠ 0 →
      ∀ row ∈ (addTestInfo s ext item itemPath itemVariant itemLoc kind component
          t0 t1 t2 t3 t4 r).metricRows,
        row.cpuUsage = (t2 + t3) / t1) ∧
    (t1 = 0 →
      addTestInfo s ext item itemPath itemVariant itemLoc kind component
          t0 t1 t2 t3 t4 r = ⟨[], s, some PyError.zeroDivision⟩) :=
  ⟨fun htot row hrow =>
     (ati_rows s ext item itemPath itemVariant itemLoc kind component t0 t1 t2 t3 t4 base r
       hscope hbase htot row hrow).1,
   fun h0 => by
     have hm : kind ∈ s.scope := by simpa using hscope
     unfold addTestInfo
     simp [hm, hbase, h0]⟩

/-- Claim C4, witness: with user 0.6, kernel 0.1 and total 1.0 every recorded
row carries `cpu_usage = 0.7`, and the same dispatch at total 0 raises
`ZeroDivisionError`. -/
theorem c4_witness :
    (∀ row ∈ (addTestInfo stW extW "t" "p" "v" "l" "function" "c" 0 1 (6/10) (1/10) 120
        (HttpResp.ok (201, ""))).metricRows,
      row.cpuUsage = 7/10) ∧
    addTestInfo stW extW "t" "p" "v" "l" "function" "c" 0 0 (6/10) (1/10) 120
        (HttpResp.ok (201, "")) = ⟨[], stW, some PyError.zeroDivision⟩ := by
  constructor
  · intro row hrow
    have h := (c4_cpu_usage stW extW "t" "p" "v" "l" "function" "c" 0 1 (6/10) (1/10) 120
      100 (HttpResp.ok (201, "")) (by decide) rfl).1 (by norm_num) row hrow
    rw [h]
    norm_num
  · exact (c4_cpu_usage stW extW "t" "p" "v" "l" "function" "c" 0 0 (6/10) (1/10) 120
      100 (HttpResp.ok (201, "")) (by decide) rfl).2 rfl

/-- Claim C5: every metric row recorded by an in-scope dispatch carries
`mem_usage = raw - baseline`, and the baseline is the `memory_profiler`
sample stored by `prepare` during session establishment, before any metric. -/
theorem c5_baseline_subtraction (s : SessionState) (ext : Externals)
    (item itemPath itemVariant itemLoc kind component : String)
    (t0 t1 t2 t3 t4 base : Rat) (r : HttpResp (Nat × String))
    (hscope : s.scope.contains kind = true) (hbase : s.memUsageBase = some base)
    (htot : t1 ≠ 0) :
    (∀ row ∈ (addTestInfo s ext item itemPath itemVariant itemLoc kind component
        t0 t1 t2 t3 t4 r).metricRows,
      row.memUsage = t4 - base) ∧
    (prepare s ext).memUsageBase = some ext.memSample ∧
    (∀ (description : String) (tags : List Tag) (env : ExecutionContext)
       (g : HttpResp (Nat × List String)) (c : HttpResp (Nat × String)) (r2 : HttpResp Nat),
       (∀ t ∈ tags, ∀ x ∈ tagStrings t, x.data.contains '=' = true) →
       (computeInfo s ext description tags env g c r2).state.memUsageBase =
         some ext.memSample) :=
  ⟨fun row hrow =>
     (ati_rows s ext item itemPath itemVariant itemLoc kind component t0 t1 t2 t3 t4 base r
       hscope hbase htot row hrow).2,
   rfl,
   fun description tags env g c r2 htags =>
     ci_membase s ext description tags env g c r2 htags⟩

/-- Claim C5, witness: with baseline 100 and raw reading 120 every recorded
row carries delta 20, and with baseline 0 the delta equals the raw reading. -/
theorem c5_witness :
    (∀ row ∈ (addTestInfo stW extW "t" "p" "v" "l" "function" "c" 0 1 1 1 120
        (HttpResp.ok (201, ""))).metricRows,
      row.memUsage = 20) ∧
    (∀ row ∈ (addTestInfo { stW with memUsageBase := some 0 } extW "t" "p" "v" "l"
        "function" "c" 0 1 1 1 120 (HttpResp.ok (201, ""))).metricRows,
      row.memUsage = 120) := by
  constructor
  · intro row hrow
    have h := (c5_baseline_subtraction stW extW "t" "p" "v" "l" "function" "c" 0 1 1 1 120
      100 (HttpResp.ok (201, "")) (by decide) rfl (by norm_num)).1 row hrow
    rw [h]
    norm_num
  · intro row hrow
    have h := (c5_baseline_subtraction { stW with memUsageBase := some 0 } extW "t" "p" "v"
      "l" "function" "c" 0 1 1 1 120 0 (HttpResp.ok (201, "")) (by decide) rfl
      (by norm_num)).1 row hrow
    rw [h]
    norm_num

/-- Claim C6: local environment resolution deduplicates and is idempotent —
with the fingerprint already stored, its key becomes the local id and no
insert occurs; with it absent, exactly one context insert occurs and the id
is the re-queried key; and resolving the same context twice yields the same
local id both times with no second insert. (Remote sink falsy: the claim is
about the local path.) -/
theorem c6_local_env_dedup :
    (∀ (s : SessionState) (env : ExecutionContext) (g : HttpResp (Nat × List String))
       (c : HttpResp (Nat × String)) (db0 : LocalDB),
       truthy s.remote = false → s.db = some db0 →
       db0.contexts.contains env.hash = true →
       (setEnvironmentInfo s env g c).state.eid.1 = some env.hash ∧
       (setEnvironmentInfo s env g c).state.db = some db0 ∧
       (setEnvironmentInfo s env g c).effects.filter Effect.isLocalWrite = []) ∧
    (∀ (s : SessionState) (env : ExecutionContext) (g : HttpResp (Nat × List String))
       (c : HttpResp (Nat × String)) (db0 : LocalDB),
       truthy s.remote = false → s.db = some db0 →
       db0.contexts.contains env.hash = false →
       (setEnvironmentInfo s env g c).state.eid.1 = some env.hash ∧
       (setEnvironmentInfo s env g c).state.db =
         some (db0.insertExecutionContext env.hash) ∧
       (setEnvironmentInfo s env g c).effects.filter Effect.isLocalWrite =
         [Effect.dbInsertContext env.hash]) ∧
    (∀ (s : SessionState) (env : ExecutionContext) (g g2 : HttpResp (Nat × List String))
       (c c2 : HttpResp (Nat × String)) (db0 : LocalDB),
       truthy s.remote = false → s.db = some db0 →
       (setEnvironmentInfo s env g c).state.eid.1 = some env.hash ∧
       (setEnvironmentInfo (setEnvironmentInfo s env g c).state env g2 c2).state.eid.1 =
         some env.hash ∧
       (setEnvironmentInfo (setEnvironmentInfo s env g c).state env g2 c2).effects.filter
         Effect.isLocalWrite = []) := by
  refine ⟨?_, ?_, ?_⟩
  · intro s env g c db0 hr hdb hc
    simp [sei_disabled_found s env g c db0 hr hdb hc, hdb]
  · intro s env g c db0 hr hdb hc
    simp [sei_disabled_absent s env g c db0 hr hdb hc, hdb, List.filter,
          Effect.isLocalWrite]
  · intro s env g g2 c c2 db0 hr hdb
    by_cases hc : db0.contexts.contains env.hash = true
    · rw [sei_disabled_found s env g c db0 hr hdb hc]
      have h2 := sei_disabled_found { s with eid := (some env.hash, none) } env g2 c2 db0
        hr hdb hc
      simp [h2]
    · rw [sei_disabled_absent s env g c db0 hr hdb (by simpa using hc)]
      have h2 := sei_disabled_found
        { s with db := some (db0.insertExecutionContext env.hash),
                 eid := (some env.hash, none) } env g2 c2
        (db0.insertExecutionContext env.hash) hr rfl
        (by simpa [LocalDB.insertExecutionContext] using contains_append_self db0.contexts env.hash)
      simp [h2]

/-- Claim C6, witness: a concrete resolution against a store already holding
the fingerprint, and a concrete double resolution of a fresh context. -/
theorem c6_witness :
    (setEnvironmentInfo stL envW (HttpResp.ok (200, [])) (HttpResp.ok (201, "x"))).state.eid.1
        = some "ctx1" ∧
    (setEnvironmentInfo stL envW (HttpResp.ok (200, []))
        (HttpResp.ok (201, "x"))).effects.filter Effect.isLocalWrite = [] ∧
    (setEnvironmentInfo (setEnvironmentInfo stL envN (HttpResp.ok (200, []))
        (HttpResp.ok (201, "x"))).state envN (HttpResp.ok (200, []))
        (HttpResp.ok (201, "x"))).state.eid.1 = some "ctx2" ∧
    (setEnvironmentInfo (setEnvironmentInfo stL envN (HttpResp.ok (200, []))
        (HttpResp.ok (201, "x"))).state envN (HttpResp.ok (200, []))
        (HttpResp.ok (201, "x"))).effects.filter Effect.isLocalWrite = [] := by
  have h1 := c6_local_env_dedup.1 stL envW (HttpResp.ok (200, [])) (HttpResp.ok (201, "x"))
    dbW (by decide) rfl (by decide)
  have h3 := c6_local_env_dedup.2.2 stL envN (HttpResp.ok (200, [])) (HttpResp.ok (200, []))
    (HttpResp.ok (201, "x")) (HttpResp.ok (201, "x")) dbW (by decide) rfl
  exact ⟨h1.1, h1.2.2, h3.2.1, h3.2.2⟩

/-- Claim C7: the session identity computed by `compute_info` is the digest of
the source-control revision, the run timestamp and the caller description
concatenated in that order, independent of the tags and the CI metadata that
are merged into the description payload afterwards. -/
theorem c7_session_identity (s : SessionState) (ext : Externals) (description : String)
    (tags : List Tag) (env : ExecutionContext)
    (g : HttpResp (Nat × List String)) (c : HttpResp (Nat × String)) (r : HttpResp Nat) :
    (computeInfo s ext description tags env g c r).state.session =
      ext.md5hex (ext.scmRevision ++ ext.nowIso ++ description) :=
  ci_session s ext description tags env g c r

/-- Claim C8: the system-memory snapshot is a strict no-op when the remote
sink is falsy, never writes the local store, never raises, and never changes
the remote health flag or the store — for any response, including a raised
transport exception. -/
theorem c8_snapshot_best_effort (s : SessionState) (itemPath item : String)
    (stats : SysSample) (r : HttpResp Nat) :
    (truthy s.remote = false →
      addSystemMemorySnapshot s itemPath item stats r = ⟨[], s, none⟩) ∧
    (addSystemMemorySnapshot s itemPath item stats r).err = none ∧
    (addSystemMemorySnapshot s itemPath item stats r).effects.filter
      Effect.isLocalWrite = [] ∧
    (addSystemMemorySnapshot s itemPath item stats r).state.remote = s.remote ∧
    (addSystemMemorySnapshot s itemPath item stats r).state.db = s.db := by
  by_cases h : truthy s.remote = false
  · simp [addSystemMemorySnapshot, h]
  · rcases r with st | m <;>
      simp [addSystemMemorySnapshot, h, Effect.isLocalWrite] <;>
        split_ifs <;> simp [Effect.isLocalWrite]

/-- Claim C8, witness: a raised transport exception at a concrete snapshot is
swallowed, and the snapshot is a no-op at a concrete remote-less state. -/
theorem c8_witness :
    (addSystemMemorySnapshot stW "p" "i" statsW (HttpResp.raised "down")).err = none ∧
    (addSystemMemorySnapshot stW "p" "i" statsW (HttpResp.raised "down")).state.remote
        = stW.remote ∧
    addSystemMemorySnapshot stL "p" "i" statsW (HttpResp.ok 500) = ⟨[], stL, none⟩ :=
  ⟨(c8_snapshot_best_effort stW "p" "i" statsW (HttpResp.raised "down")).2.1,
   (c8_snapshot_best_effort stW "p" "i" statsW (HttpResp.raised "down")).2.2.2.1,
   (c8_snapshot_best_effort stL "p" "i" statsW (HttpResp.ok 500)).1 rfl⟩

/-- Claim C9: constructed with the default `scope=None`, the scope set is the
empty list, so `add_test_info` drops every metric — for any kind and any
arguments the state is unchanged and no sink is written. -/
theorem c9_default_scope_drops_all (db : Option LocalDB) (remote : Option String)
    (component : String) (tracing : Bool) (ext : Externals)
    (item itemPath itemVariant itemLoc kind comp2 : String)
    (t0 t1 t2 t3 t4 : Rat) (r : HttpResp (Nat × String)) :
    (initSession db remote component none tracing).scope = [] ∧
    addTestInfo (initSession db remote component none tracing) ext item itemPath
        itemVariant itemLoc kind comp2 t0 t1 t2 t3 t4 r =
      ⟨[Effect.log "METRIC SKIPPED: kind not in scope"],
       initSession db remote component none tracing, none⟩ := by
  constructor
  · rfl
  · unfold addTestInfo
    simp [initSession]

/-- Claim C10: `compute_info` raises `IndexError` exactly when some tag string
(at top level or inside a nested sequence) lacks the separator; the failure
happens before any sink effect, and with every tag string containing the
separator no `IndexError` can arise. -/
theorem c10_tags_require_equals (s : SessionState) (ext : Externals)
    (description : String) (tags : List Tag) (env : ExecutionContext)
    (g : HttpResp (Nat × List String)) (c : HttpResp (Nat × String)) (r : HttpResp Nat) :
    ((∀ t ∈ tags, ∀ x ∈ tagStrings t, x.data.contains '=' = true) →
       (computeInfo s ext description tags env g c r).err ≠ some PyError.indexError) ∧
    ((∃ t ∈ tags, ∃ x ∈ tagStrings t, x.data.contains '=' = false) →
       (computeInfo s ext description tags env g c r).err = some PyError.indexError ∧
       (computeInfo s ext description tags env g c r).effects = []) :=
  ⟨fun h => ci_no_index s ext description tags env g c r h,
   fun h => by
     unfold computeInfo
     dsimp only
     rw [applyTags_err tags _ h]
     simp⟩

/-- Claim C10, witness: well-formed concrete tags establish the session
without `IndexError`, while a concrete separator-free tag aborts before any
sink write. -/
theorem c10_witness :
    (computeInfo stW extW "d" [Tag.single "k=v", Tag.group ["a=1", "b=2"]] envW
       (HttpResp.ok (200, ["rctx"])) (HttpResp.ok (201, "h"))
       (HttpResp.ok 201)).err ≠ some PyError.indexError ∧
    (computeInfo stW extW "d" [Tag.single "k=v", Tag.single "noequals"] envW
       (HttpResp.ok (200, ["rctx"])) (HttpResp.ok (201, "h"))
       (HttpResp.ok 201)).effects = [] :=
  ⟨(c10_tags_require_equals stW extW "d" [Tag.single "k=v", Tag.group ["a=1", "b=2"]] envW
      (HttpResp.ok (200, ["rctx"])) (HttpResp.ok (201, "h")) (HttpResp.ok 201)).1
      (by decide),
   ((c10_tags_require_equals stW extW "d" [Tag.single "k=v", Tag.single "noequals"] envW
      (HttpResp.ok (200, ["rctx"])) (HttpResp.ok (201, "h")) (HttpResp.ok 201)).2
      ⟨Tag.single "noequals", by simp, "noequals", by simp [tagStrings], by decide⟩).2⟩
